import Mathlib

/-!
Verification of the OrderItem lifecycle hooks of the e-commerce schema
(src/schema.ts): the `resolveInput` hook (snapshot population and line-total
computation) and the `afterOperation` hook (order-total recalculation),
together with the declared integer-field validation on `quantity`.

JavaScript field bags are embedded with an explicit `undefined`/`null`/value
distinction, the Product lookup is a function from ids to lookup outcomes
(found, not found, or a thrown store error), and the post-commit database
state is an explicit list of stored OrderItems and Orders.
-/

/-- A JavaScript value slot: `undefined` (key absent), `null`, or a value. -/
inductive JVal (α : Type) where
  | undef : JVal α
  | null : JVal α
  | val : α → JVal α
deriving DecidableEq

/-- Relationship input for the `product` field of a write: `{ connect: { id } }`
carries an id; any other relationship object (e.g. a disconnect) carries none. -/
structure RelInput where
  connect : Option String
deriving DecidableEq

/-- The resolved data of an OrderItem write, as seen by `resolveInput`
(src/schema.ts line 305): the spread copy of `resolvedData`. -/
structure ResolvedData where
  product : JVal RelInput
  quantity : JVal Int
  productNameSnapshot : JVal String
  unitPriceCents : JVal Int
  lineTotalCents : JVal Int
deriving DecidableEq

/-- A stored OrderItem row. Relationship foreign keys are nullable; the numeric
and text columns are kept optional to mirror the defensive null handling in the
hooks (`item?.quantity ?? 1`, `item?.unitPriceCents ?? 0`, `oi.lineTotalCents || 0`). -/
structure Item where
  productId : Option String
  orderId : Option String
  productNameSnapshot : Option String
  unitPriceCents : Option Int
  quantity : Option Int
  lineTotalCents : Option Int
deriving DecidableEq

/-- The part of a Product row read by the snapshot resolver. -/
structure Product where
  name : String
  priceCents : Int
deriving DecidableEq

/-- Outcome of `context.db.Product.findOne`: a row, a miss (`null`), or a
thrown store error. -/
inductive LookupResult where
  | found : Product → LookupResult
  | notFound : LookupResult
  | storeError : LookupResult
deriving DecidableEq

/-- The hook operation for `resolveInput` (create or update). -/
inductive Operation where
  | create : Operation
  | update : Operation
deriving DecidableEq

/-- src/schema.ts lines 308-313: the effective quantity is `data.quantity`
when it is a number, else `item?.quantity ?? 1`. -/
def resolveQuantity (data : ResolvedData) (item : Option Item) : Int :=
  match data.quantity with
  | .val q => q
  | _ => (item.bind (·.quantity)).getD 1

/-- src/schema.ts lines 316-324: the effective product id is
`data.product?.connect?.id` when truthy; else, on update when `data.product`
is falsy, the truthy `item?.productId`; else undefined. -/
def resolveProductId (operation : Operation) (data : ResolvedData) (item : Option Item) :
    Option String :=
  match data.product with
  | .val r =>
    match r.connect with
    | some id => if id = "" then none else some id
    | none => none
  | _ =>
    match operation, item with
    | .update, some it =>
      match it.productId with
      | some pid => if pid = "" then none else some pid
      | none => none
    | _, _ => none

/-- src/schema.ts line 330: the name snapshot is missing when it is
`undefined`, `null`, or the empty string. -/
def needName (data : ResolvedData) : Bool :=
  match data.productNameSnapshot with
  | .undef => true
  | .null => true
  | .val s => s = ""

/-- src/schema.ts line 332: the unit price is missing only when it is
`undefined`. -/
def needPrice (data : ResolvedData) : Bool :=
  match data.unitPriceCents with
  | .undef => true
  | _ => false

/-- src/schema.ts lines 333-344: when a product id is resolvable and a
snapshot field is missing, fetch the Product and fill the missing fields from
it; on a miss or a thrown lookup error the data is left as supplied (the
error is caught and logged). -/
def applySnapshot (operation : Operation) (data : ResolvedData) (item : Option Item)
    (db : String → LookupResult) : ResolvedData :=
  match resolveProductId operation data item with
  | some pid =>
    if needName data || needPrice data then
      match db pid with
      | .found p =>
        { data with
          productNameSnapshot :=
            if needName data then .val p.name else data.productNameSnapshot
          unitPriceCents :=
            if needPrice data then .val p.priceCents else data.unitPriceCents }
      | .notFound => data
      | .storeError => data
    else data
  | none => data

/-- src/schema.ts line 347: the effective unit price is the (post-snapshot)
`data.unitPriceCents` when it is a number, else `item?.unitPriceCents ?? 0`. -/
def effectiveUnitPrice (data : ResolvedData) (item : Option Item) : Int :=
  match data.unitPriceCents with
  | .val n => n
  | _ => (item.bind (·.unitPriceCents)).getD 0

/-- src/schema.ts lines 303-349: the whole `resolveInput` hook. Snapshot
fields are populated, then `lineTotalCents` is set to the effective quantity
times the effective unit price, overwriting whatever the client supplied. -/
def resolveInput (operation : Operation) (data : ResolvedData) (item : Option Item)
    (db : String → LookupResult) : ResolvedData :=
  let d := applySnapshot operation data item db
  { d with
    lineTotalCents := .val (resolveQuantity data item * effectiveUnitPrice d item) }

/-- A stored Order row, as touched by the recalculator. -/
structure OrderRec where
  id : String
  totalCents : Int
deriving DecidableEq

/-- The post-commit database state seen by `afterOperation`: all stored
OrderItems and all stored Orders. -/
structure DBState where
  items : List Item
  orders : List OrderRec
deriving DecidableEq

/-- src/schema.ts line 354: `item || originalItem` (for delete, `item` is
undefined and the pre-delete snapshot `originalItem` is used). -/
def effItem : Option Item → Option Item → Option Item
  | some i, _ => some i
  | none, originalItem => originalItem

/-- src/schema.ts lines 354-356: the owning order id, when the effective item
exists and its `orderId` is truthy. -/
def effOrderId (item originalItem : Option Item) : Option String :=
  match effItem item originalItem with
  | none => none
  | some eff =>
    match eff.orderId with
    | none => none
    | some oid => if oid = "" then none else some oid

/-- src/schema.ts line 362: `reduce((sum, oi) => sum + (oi.lineTotalCents || 0), 0)`. -/
def sumLineTotals (items : List Item) : Int :=
  items.foldl (fun sum oi => sum + oi.lineTotalCents.getD 0) 0

/-- src/schema.ts line 363: `Order.updateOne` setting `totalCents` on the
order with the given id. -/
def setOrderTotal (orders : List OrderRec) (oid : String) (total : Int) : List OrderRec :=
  orders.map fun o => if o.id = oid then { o with totalCents := total } else o

/-- src/schema.ts lines 357-366: list the items of the order, sum their line
totals, and persist the sum; a thrown listing or update error is caught and
logged, leaving the state unchanged. `listFails` and `updateFails` inject the
two possible thrown errors. -/
def recalcOrderTotal (oid : String) (st : DBState) (listFails updateFails : Bool) : DBState :=
  if listFails then st
  else
    let listed := st.items.filter fun oi => oi.orderId == some oid
    let total := sumLineTotals listed
    if updateFails then st
    else { st with orders := setOrderTotal st.orders oid total }

/-- src/schema.ts lines 352-367: the whole `afterOperation` hook, a no-op when
no order id is resolvable from the effective item. -/
def afterOperation (item originalItem : Option Item) (st : DBState)
    (listFails updateFails : Bool) : DBState :=
  match effOrderId item originalItem with
  | none => st
  | some oid => recalcOrderTotal oid st listFails updateFails

/-- Validation config of a Keystone integer field, as declared in the schema. -/
structure IntValidation where
  isRequired : Bool
  min : Option Int
deriving DecidableEq

/-- src/schema.ts lines 282-286: `quantity: integer({ validation:
{ isRequired: true, min: 1 }, defaultValue: 1 })`. -/
def quantityValidation : IntValidation :=
  { isRequired := true, min := some 1 }

/-- Error surfaced by field validation on the primary write. -/
inductive WriteError where
  | validationError : WriteError
deriving DecidableEq

/-- Modelled from the spec: the Keystone integer-field validation runtime is
not part of this repository (only the field declaration is); per the spec, a
missing required value or a value below the declared minimum is rejected with
a ValidationError that aborts the write, and any other value is accepted. -/
def intFieldValidate (cfg : IntValidation) (v : Option Int) : Except WriteError (Option Int) :=
  match v with
  | none => if cfg.isRequired then .error .validationError else .ok none
  | some n =>
    match cfg.min with
    | some m => if n < m then .error .validationError else .ok (some n)
    | none => .ok (some n)

/-- Concrete stored item for the snapshot-immutability scenario: snapshot taken
at price 1999. -/
def itemC1 : Item :=
  { productId := some "p1", orderId := some "o1", productNameSnapshot := some "Widget",
    unitPriceCents := some 1999, quantity := some 1, lineTotalCents := some 1999 }

/-- An update write changing quantity alone (all snapshot fields absent). -/
def updC1 : ResolvedData :=
  { product := .undef, quantity := .val 2, productNameSnapshot := .undef,
    unitPriceCents := .undef, lineTotalCents := .undef }

/-- Product store where the referenced product now costs 2500. -/
def dbC1 : String → LookupResult :=
  fun _ => .found { name := "Widget", priceCents := 2500 }

/-- Create write with an unresolved product, explicit price 500 and quantity 3,
and a client-supplied line total of 99 that must be overwritten. -/
def dataC2 : ResolvedData :=
  { product := .undef, quantity := .val 3, productNameSnapshot := .val "X",
    unitPriceCents := .val 500, lineTotalCents := .val 99 }

/-- Product store in which every lookup misses. -/
def dbMiss : String → LookupResult := fun _ => .notFound

/-- Product store in which every lookup throws. -/
def dbErr : String → LookupResult := fun _ => .storeError

/-- Create write connecting product p1 with no snapshot fields supplied. -/
def dataC4 : ResolvedData :=
  { product := .val { connect := some "p1" }, quantity := .val 1,
    productNameSnapshot := .undef, unitPriceCents := .undef, lineTotalCents := .undef }

/-- Product store holding the Widget at 1999 cents. -/
def dbWidget : String → LookupResult :=
  fun _ => .found { name := "Widget", priceCents := 1999 }

/-- Stored item A with line total 1500 under order o1. -/
def itemA : Item :=
  { productId := some "p1", orderId := some "o1", productNameSnapshot := some "A",
    unitPriceCents := some 500, quantity := some 3, lineTotalCents := some 1500 }

/-- Stored item B with line total 2998 under order o1. -/
def itemB : Item :=
  { productId := some "p2", orderId := some "o1", productNameSnapshot := some "B",
    unitPriceCents := some 1499, quantity := some 2, lineTotalCents := some 2998 }

/-- Post-commit state after creating items A and B under order o1. -/
def stAB : DBState :=
  { items := [itemA, itemB], orders := [{ id := "o1", totalCents := 0 }] }

/-- Post-commit state after deleting item A: only B remains. -/
def stDel : DBState :=
  { items := [itemB], orders := [{ id := "o1", totalCents := 4498 }] }

/-- Create write connecting a product, with a null name snapshot and a null
unit price. -/
def dataC10 : ResolvedData :=
  { product := .val { connect := some "p1" }, quantity := .val 4,
    productNameSnapshot := .null, unitPriceCents := .null, lineTotalCents := .undef }

/-- A fully null stored item (no owning order, no line total). -/
def itemNoOrder : Item :=
  { productId := none, orderId := none, productNameSnapshot := none,
    unitPriceCents := none, quantity := none, lineTotalCents := none }

/-- A write proposing no quantity at all. -/
def dataUq : ResolvedData :=
  { product := .undef, quantity := .undef, productNameSnapshot := .val "X",
    unitPriceCents := .val 500, lineTotalCents := .undef }

/-- Create write with no product reference, no unit price, and quantity 7. -/
def dataC9 : ResolvedData :=
  { product := .undef, quantity := .val 7, productNameSnapshot := .val "X",
    unitPriceCents := .undef, lineTotalCents := .undef }

/-- The product fetched by the snapshot phase, when its guard fires and the
lookup succeeds (none when no fetch happens or the fetch misses or throws). -/
def fetchedProduct (op : Operation) (data : ResolvedData) (item : Option Item)
    (db : String → LookupResult) : Option Product :=
  match resolveProductId op data item with
  | some pid =>
    if needName data || needPrice data then
      match db pid with
      | .found p => some p
      | .notFound => none
      | .storeError => none
    else none
  | none => none

theorem applySnapshot_lt_irrel (op : Operation) (p : JVal RelInput) (q : JVal Int)
    (n : JVal String) (u : JVal Int) (l v : JVal Int) (item : Option Item)
    (db : String → LookupResult) :
    applySnapshot op ⟨p, q, n, u, v⟩ item db =
      { applySnapshot op ⟨p, q, n, u, l⟩ item db with lineTotalCents := v } := by
  unfold applySnapshot
  have e : resolveProductId op ⟨p, q, n, u, v⟩ item =
      resolveProductId op ⟨p, q, n, u, l⟩ item := rfl
  rw [e]
  cases hr : resolveProductId op ⟨p, q, n, u, l⟩ item with
  | none => rfl
  | some pid =>
    dsimp only
    have en : needName ⟨p, q, n, u, v⟩ = needName ⟨p, q, n, u, l⟩ := rfl
    have ep : needPrice ⟨p, q, n, u, v⟩ = needPrice ⟨p, q, n, u, l⟩ := rfl
    rw [en, ep]
    cases needName ⟨p, q, n, u, l⟩ <;> cases needPrice ⟨p, q, n, u, l⟩ <;>
      cases db pid <;> rfl

theorem resolveInput_lt_irrel (op : Operation) (data : ResolvedData) (v : JVal Int)
    (item : Option Item) (db : String → LookupResult) :
    resolveInput op { data with lineTotalCents := v } item db =
      resolveInput op data item db := by
  obtain ⟨p, q, n, u, l⟩ := data
  show resolveInput op ⟨p, q, n, u, v⟩ item db = resolveInput op ⟨p, q, n, u, l⟩ item db
  unfold resolveInput
  rw [applySnapshot_lt_irrel op p q n u l v item db]
  rfl

/-- Claim C1: the spec requires snapshot semantics (once `productNameSnapshot`
and `unitPriceCents` are set on a stored OrderItem, an update supplying no new
values for them leaves them unchanged, so later Product changes never reach
them). The code instead tests absence in the write payload, not on the stored
item: updating quantity alone on an item whose snapshot price is 1999 while
the Product now costs 2500 makes the resolver write unitPriceCents 2500 and
lineTotalCents 5000 into the update. -/
theorem C1_snapshot_overwritten_on_quantity_update :
    itemC1.unitPriceCents = some 1999 ∧
    updC1.productNameSnapshot = JVal.undef ∧
    updC1.unitPriceCents = JVal.undef ∧
    (resolveInput .update updC1 (some itemC1) dbC1).unitPriceCents = JVal.val 2500 ∧
    (resolveInput .update updC1 (some itemC1) dbC1).lineTotalCents = JVal.val 5000 := by
  refine ⟨rfl, rfl, rfl, ?_, ?_⟩ <;> decide

/-- Claim C2: after `resolveInput`, `lineTotalCents` equals the effective
quantity times the effective unit price; the client-supplied `lineTotalCents`
never influences the result; and the create with an unresolved product,
unit price 500 and quantity 3 yields line total 1500 (overwriting the
client-supplied 99). -/
theorem C2_line_total_recomputed :
    (∀ (op : Operation) (data : ResolvedData) (item : Option Item)
        (db : String → LookupResult),
      (resolveInput op data item db).lineTotalCents =
        JVal.val (resolveQuantity data item *
          effectiveUnitPrice (applySnapshot op data item db) item)) ∧
    (∀ (op : Operation) (data : ResolvedData) (v : JVal Int) (item : Option Item)
        (db : String → LookupResult),
      resolveInput op { data with lineTotalCents := v } item db =
        resolveInput op data item db) ∧
    (resolveInput .create dataC2 none dbMiss).lineTotalCents = JVal.val 1500 := by
  refine ⟨fun op data item db => rfl, fun op data v item db => resolveInput_lt_irrel .., ?_⟩
  decide

/-- Claim C7: the effective quantity is the proposed quantity when the write
carries a numeric one, else the previous stored quantity when a previous item
exists, else the default 1. -/
theorem C7_effective_quantity :
    (∀ (data : ResolvedData) (item : Option Item) (q : Int),
      data.quantity = JVal.val q → resolveQuantity data item = q) ∧
    (∀ (data : ResolvedData) (it : Item) (q : Int),
      (data.quantity = JVal.undef ∨ data.quantity = JVal.null) → it.quantity = some q →
        resolveQuantity data (some it) = q) ∧
    (∀ (data : ResolvedData),
      (data.quantity = JVal.undef ∨ data.quantity = JVal.null) →
        resolveQuantity data none = 1) := by
  refine ⟨fun data item q h => ?_, fun data it q h hq => ?_, fun data h => ?_⟩
  · simp [resolveQuantity, h]
  · rcases h with h | h <;> simp [resolveQuantity, h, hq]
  · rcases h with h | h <;> simp [resolveQuantity, h]

/-- Witness for C7 at concrete inputs: proposed quantity 3 is used; with no
proposed quantity the stored quantity 3 of item A is used; with no proposed
quantity and no stored item the default is 1. -/
theorem C7_effective_quantity_witness :
    resolveQuantity dataC2 none = 3 ∧
    resolveQuantity dataUq (some itemA) = 3 ∧
    resolveQuantity dataUq none = 1 :=
  ⟨C7_effective_quantity.1 dataC2 none 3 rfl,
   C7_effective_quantity.2.1 dataUq itemA 3 (Or.inl rfl) rfl,
   C7_effective_quantity.2.2 dataUq (Or.inl rfl)⟩

/-- Claim C8: under the declared quantity validation (required, minimum 1),
quantity 0 is rejected with a ValidationError, quantity 1 is accepted, and
every accepted quantity is at least 1. -/
theorem C8_quantity_min_validation :
    intFieldValidate quantityValidation (some 0) = .error .validationError ∧
    intFieldValidate quantityValidation (some 1) = .ok (some 1) ∧
    (∀ (n : Int) (v : Option Int),
      intFieldValidate quantityValidation (some n) = .ok v → 1 ≤ n) := by
  refine ⟨rfl, rfl, fun n v h => ?_⟩
  by_cases hn : n < 1
  · simp [intFieldValidate, quantityValidation, hn] at h
  · omega

/-- Witness for C8: quantity 2 is accepted and hence at least 1. -/
theorem C8_quantity_min_validation_witness : (1 : Int) ≤ 2 :=
  C8_quantity_min_validation.2.2 2 (some 2) rfl

/-- Claim C3: whenever the recalculator resolves an owning order id (and no
store failure is injected), it sets that order total to the sum of the line
totals of exactly the stored items of that order in the post-commit state;
a null line total contributes zero to the sum; for the two items 1500 and
2998 under order o1 the resulting total is 4498. -/
theorem C3_recalc_sets_sum :
    (∀ (item orig : Option Item) (st : DBState) (oid : String),
      effOrderId item orig = some oid →
        afterOperation item orig st false false =
          { st with orders := setOrderTotal st.orders oid (sumLineTotals (st.items.filter fun oi => oi.orderId == some oid)) }) ∧
    (∀ (its : List Item) (oi : Item), oi.lineTotalCents = none →
      sumLineTotals (oi :: its) = sumLineTotals its) ∧
    (afterOperation (some itemB) none stAB false false).orders =
      [{ id := "o1", totalCents := 4498 }] := by
  refine ⟨fun item orig st oid h => ?_, fun its oi h => ?_, ?_⟩
  · simp [afterOperation, h, recalcOrderTotal]
  · simp [sumLineTotals, h]
  · decide

/-- Witness for C3: at the concrete post-commit state holding items A (1500)
and B (2998) under order o1, the recalculator writes total 4498. -/
theorem C3_recalc_sets_sum_witness :
    effOrderId (some itemB) none = some "o1" ∧
    (afterOperation (some itemB) none stAB false false).orders =
      [{ id := "o1", totalCents := 4498 }] ∧
    sumLineTotals [itemNoOrder, itemB] = sumLineTotals [itemB] := by
  refine ⟨rfl, ?_, C3_recalc_sets_sum.2.1 [itemB] itemNoOrder rfl⟩
  rw [C3_recalc_sets_sum.1 (some itemB) none stAB "o1" rfl]
  decide

/-- Claim C4: on a create that connects a product, with the name snapshot
missing and the unit price absent, the resolver fills both fields from the
fetched Product (its current name and priceCents). -/
theorem C4_snapshot_population (data : ResolvedData) (item : Option Item)
    (db : String → LookupResult) (pid : String) (p : Product)
    (hconn : data.product = JVal.val { connect := some pid }) (hpid : pid ≠ "")
    (hname : needName data = true) (hprice : data.unitPriceCents = JVal.undef)
    (hdb : db pid = .found p) :
    (resolveInput .create data item db).productNameSnapshot = JVal.val p.name ∧
    (resolveInput .create data item db).unitPriceCents = JVal.val p.priceCents := by
  have hrp : resolveProductId .create data item = some pid := by
    simp [resolveProductId, hconn, hpid]
  have hnp : needPrice data = true := by simp [needPrice, hprice]
  have hsnap : applySnapshot .create data item db =
      { data with productNameSnapshot := JVal.val p.name,
                  unitPriceCents := JVal.val p.priceCents } := by
    simp [applySnapshot, hrp, hdb, hname, hnp]
  constructor <;> simp [resolveInput, hsnap]

/-- Witness for C4: creating against the Widget at 1999 cents with no snapshot
fields supplied yields snapshot name Widget and unit price 1999. -/
theorem C4_snapshot_population_witness :
    (resolveInput .create dataC4 none dbWidget).productNameSnapshot = JVal.val "Widget" ∧
    (resolveInput .create dataC4 none dbWidget).unitPriceCents = JVal.val 1999 :=
  C4_snapshot_population dataC4 none dbWidget "p1" { name := "Widget", priceCents := 1999 }
    rfl (by decide) rfl rfl rfl

/-- Claim C5: a thrown Product lookup (and likewise a miss) during snapshot
population leaves the snapshot fields exactly as supplied in the write and the
hook still completes; a thrown item-listing or order-update error during
recalculation leaves the whole post-commit state (items and orders) unchanged,
so the committed OrderItem write is not rolled back. -/
theorem C5_soft_failures :
    (∀ (op : Operation) (data : ResolvedData) (item : Option Item)
        (db : String → LookupResult) (pid : String),
      resolveProductId op data item = some pid → db pid = .storeError →
        (resolveInput op data item db).productNameSnapshot = data.productNameSnapshot ∧
        (resolveInput op data item db).unitPriceCents = data.unitPriceCents) ∧
    (∀ (op : Operation) (data : ResolvedData) (item : Option Item)
        (db : String → LookupResult) (pid : String),
      resolveProductId op data item = some pid → db pid = .notFound →
        (resolveInput op data item db).productNameSnapshot = data.productNameSnapshot ∧
        (resolveInput op data item db).unitPriceCents = data.unitPriceCents) ∧
    (∀ (item orig : Option Item) (st : DBState) (updateFails : Bool),
      afterOperation item orig st true updateFails = st) ∧
    (∀ (item orig : Option Item) (st : DBState),
      afterOperation item orig st false true = st) := by
  refine ⟨fun op data item db pid hrp hdb => ?_, fun op data item db pid hrp hdb => ?_,
    fun item orig st uf => ?_, fun item orig st => ?_⟩
  · have hsnap : applySnapshot op data item db = data := by
      by_cases hg : (needName data || needPrice data) = true <;>
        simp [applySnapshot, hrp, hdb, hg]
    constructor <;> simp [resolveInput, hsnap]
  · have hsnap : applySnapshot op data item db = data := by
      by_cases hg : (needName data || needPrice data) = true <;>
        simp [applySnapshot, hrp, hdb, hg]
    constructor <;> simp [resolveInput, hsnap]
  · unfold afterOperation
    cases effOrderId item orig <;> simp [recalcOrderTotal]
  · unfold afterOperation
    cases effOrderId item orig <;> simp [recalcOrderTotal]

/-- Witness for C5: with a throwing product store the create keeps its absent
snapshot fields as supplied; with a throwing listing query the recalculator
leaves the state holding items A and B untouched. -/
theorem C5_soft_failures_witness :
    (resolveInput .create dataC4 none dbErr).productNameSnapshot = JVal.undef ∧
    (resolveInput .create dataC4 none dbErr).unitPriceCents = JVal.undef ∧
    (resolveInput .create dataC4 none dbMiss).unitPriceCents = JVal.undef ∧
    afterOperation (some itemB) none stAB true false = stAB ∧
    afterOperation (some itemB) none stAB false true = stAB :=
  ⟨(C5_soft_failures.1 .create dataC4 none dbErr "p1" rfl rfl).1,
   (C5_soft_failures.1 .create dataC4 none dbErr "p1" rfl rfl).2,
   (C5_soft_failures.2.1 .create dataC4 none dbMiss "p1" rfl rfl).2,
   C5_soft_failures.2.2.1 (some itemB) none stAB false,
   C5_soft_failures.2.2.2 (some itemB) none stAB⟩

/-- Claim C6: on delete (no post-write item) the recalculator resolves the
order id from the pre-delete snapshot of the item; on create and update it
resolves it from the post-write item (ignoring the prior snapshot); when no
order id is resolvable it is a no-op leaving every order unchanged; deleting
item A from the two-item order leaves total 2998. -/
theorem C6_order_id_resolution :
    (∀ (orig : Item) (st : DBState) (lf uf : Bool),
      afterOperation none (some orig) st lf uf =
        match orig.orderId with
        | some oid => if oid = "" then st else recalcOrderTotal oid st lf uf
        | none => st) ∧
    (∀ (it : Item) (orig : Option Item) (st : DBState) (lf uf : Bool),
      afterOperation (some it) orig st lf uf =
        match it.orderId with
        | some oid => if oid = "" then st else recalcOrderTotal oid st lf uf
        | none => st) ∧
    (∀ (item orig : Option Item) (st : DBState) (lf uf : Bool),
      effOrderId item orig = none → afterOperation item orig st lf uf = st) ∧
    (afterOperation none (some itemA) stDel false false).orders =
      [{ id := "o1", totalCents := 2998 }] := by
  refine ⟨fun orig st lf uf => ?_, fun it orig st lf uf => ?_,
    fun item orig st lf uf h => ?_, ?_⟩
  · simp only [afterOperation, effOrderId, effItem]
    cases h : orig.orderId with
    | none => rfl
    | some oid => by_cases ho : oid = "" <;> simp [ho]
  · simp only [afterOperation, effOrderId, effItem]
    cases h : it.orderId with
    | none => rfl
    | some oid => by_cases ho : oid = "" <;> simp [ho]
  · simp [afterOperation, h]
  · decide

/-- Witness for C6: a stored item with a null order reference makes the
recalculator a no-op on the concrete two-item state. -/
theorem C6_order_id_resolution_witness :
    afterOperation (some itemNoOrder) none stAB false false = stAB :=
  C6_order_id_resolution.2.2.1 (some itemNoOrder) none stAB false false rfl

/-- Claim C9: on a create (no previous stored item) with no numeric unit price
in the write and no fetched Product to supply one, the effective unit price is
silently 0 and the persisted line total is 0 whatever the quantity; the hook
still returns normally rather than rejecting the write. -/
theorem C9_missing_price_defaults_to_zero (op : Operation) (data : ResolvedData)
    (db : String → LookupResult)
    (hnum : data.unitPriceCents = JVal.undef ∨ data.unitPriceCents = JVal.null)
    (hfetch : fetchedProduct op data none db = none) :
    effectiveUnitPrice (applySnapshot op data none db) none = 0 ∧
    (resolveInput op data none db).lineTotalCents = JVal.val 0 := by
  have hsnap : applySnapshot op data none db = data := by
    unfold fetchedProduct at hfetch
    cases hr : resolveProductId op data none with
    | none => simp [applySnapshot, hr]
    | some pid =>
      rw [hr] at hfetch
      by_cases hg : (needName data || needPrice data) = true
      · simp only [hg] at hfetch
        cases hdb : db pid with
        | found p => rw [hdb] at hfetch; simp at hfetch
        | notFound => simp [applySnapshot, hr, hg, hdb]
        | storeError => simp [applySnapshot, hr, hg, hdb]
      · simp [applySnapshot, hr, hg]
  have heff : effectiveUnitPrice (applySnapshot op data none db) none = 0 := by
    rw [hsnap]
    rcases hnum with h | h <;> simp [effectiveUnitPrice, h]
  refine ⟨heff, ?_⟩
  show JVal.val (resolveQuantity data none *
      effectiveUnitPrice (applySnapshot op data none db) none) = JVal.val 0
  rw [heff, mul_zero]

/-- Witness for C9: a create with no product reference, no unit price, and
quantity 7 fetches nothing and persists line total 0. -/
theorem C9_missing_price_defaults_to_zero_witness :
    fetchedProduct .create dataC9 none dbWidget = none ∧
    (resolveInput .create dataC9 none dbWidget).lineTotalCents = JVal.val 0 :=
  ⟨rfl, (C9_missing_price_defaults_to_zero .create dataC9 dbWidget (Or.inl rfl) rfl).2⟩

/-- Claim C10: the missing-field tests are asymmetric. With a resolvable and
found Product, a null unit price in the write suppresses price population (the
field stays null and the effective price falls back to the previous stored
value or 0), while a null or empty name snapshot is still repopulated from the
Product current name. -/
theorem C10_null_price_asymmetry (op : Operation) (data : ResolvedData) (item : Option Item)
    (db : String → LookupResult) (pid : String) (p : Product)
    (hrp : resolveProductId op data item = some pid)
    (hdb : db pid = .found p)
    (hnull : data.unitPriceCents = JVal.null)
    (hname : data.productNameSnapshot = JVal.null ∨ data.productNameSnapshot = JVal.val "") :
    (resolveInput op data item db).productNameSnapshot = JVal.val p.name ∧
    (resolveInput op data item db).unitPriceCents = JVal.null ∧
    (resolveInput op data item db).lineTotalCents =
      JVal.val (resolveQuantity data item * (item.bind (·.unitPriceCents)).getD 0) := by
  have hnn : needName data = true := by
    rcases hname with h | h <;> simp [needName, h]
  have hnp : needPrice data = false := by simp [needPrice, hnull]
  have hsnap : applySnapshot op data item db =
      { data with productNameSnapshot := JVal.val p.name } := by
    simp [applySnapshot, hrp, hdb, hnn, hnp]
  have heff : effectiveUnitPrice (applySnapshot op data item db) item =
      (item.bind (·.unitPriceCents)).getD 0 := by
    rw [hsnap]
    simp [effectiveUnitPrice, hnull]
  refine ⟨?_, ?_, ?_⟩
  · simp [resolveInput, hsnap]
  · simp [resolveInput, hsnap, hnull]
  · show JVal.val (resolveQuantity data item *
        effectiveUnitPrice (applySnapshot op data item db) item) = _
    rw [heff]

/-- Witness for C10: a create connecting the Widget with a null name snapshot
and a null unit price gets the name repopulated, keeps the null price, and
persists line total 0. -/
theorem C10_null_price_asymmetry_witness :
    (resolveInput .create dataC10 none dbWidget).productNameSnapshot = JVal.val "Widget" ∧
    (resolveInput .create dataC10 none dbWidget).unitPriceCents = JVal.null ∧
    (resolveInput .create dataC10 none dbWidget).lineTotalCents = JVal.val 0 := by
  have h := C10_null_price_asymmetry .create dataC10 none dbWidget "p1"
    { name := "Widget", priceCents := 1999 } rfl rfl rfl (Or.inl rfl)
  exact ⟨h.1, h.2.1, by rw [h.2.2]; decide⟩
